import Mathlib

/-!
Shallow embedding of the asynchronous I/O completion layer of the nng-rs
library (`src/aio.rs`) together with the socket constructor dispatch
(`nng/src/socket.rs`).  Pure control flow of each Rust function is
translated into a Lean function; calls into the foreign NNG engine and
lock/callback interactions are recorded as an explicit event trace, and
Rust panics (`unreachable!`, `expect`) are modelled as `Option.none`.
-/

namespace Nng

/-- Modelled from the spec: the message buffer type lives in `src/message.rs`,
which is absent from the sources; spec §3 describes it as an opaque owned
byte sequence whose ownership moves in and out of the engine.  It is modelled
as an opaque value identified by a tag. -/
structure Message where
  tag : Nat
deriving DecidableEq, Repr

/-- Modelled from the spec: the error type lives in `src/error.rs`, which is
absent from the sources; spec §7 gives the taxonomy: `TryAgain`, `TimedOut`,
`Canceled`, engine status codes surfaced verbatim, and `Unknown`. -/
inductive Error where
  | TryAgain
  | TimedOut
  | Canceled
  | FromCode (code : Nat)
  | Unknown (code : Nat)
deriving DecidableEq, Repr

/-- Modelled from the spec: `Error::from_code` lives in `src/error.rs`, absent
from the sources; spec §7 says transport/protocol errors are surfaced verbatim
from the engine's status code, so the model tags the raw code. -/
def Error.from_code (code : Nat) : Error := Error.FromCode code

/-- The `State` enum of `src/aio.rs`: the state of the AIO object. -/
inductive State where
  | Building
  | Inactive
  | Sending
  | Receiving
  | Sleeping
deriving DecidableEq, Repr

/-- The `AioResult` enum of `src/aio.rs`: the result of an AIO operation. -/
inductive AioResult where
  | SendOk
  | SendErr (msg : Message) (err : Error)
  | RecvOk (msg : Message)
  | RecvErr (err : Error)
  | SleepOk
  | SleepErr (err : Error)
deriving DecidableEq, Repr

/-- The `Inner` struct of `src/aio.rs`: the shared completion cell, holding
the foreign handle (modelled as a numeric pointer value) and the current
operation state. -/
structure Inner where
  handle : Nat
  state : State
deriving DecidableEq, Repr

/-- Observable events of the embedding: calls into the foreign NNG engine,
lock operations on the shared cell, the state reset, the user-callback
invocation, and a panic. -/
inductive Event where
  | lockAcquire
  | lockRelease
  | aioGetResult (handle : Nat)
  | aioGetMsg (handle : Nat)
  | setInactive
  | userCallback (res : AioResult)
  | panicked
  | sleepAio (ms : Int) (handle : Nat)
  | aioSetMsg (handle : Nat) (msg : Message)
  | sendAio (socket : Nat) (handle : Nat)
  | recvAio (socket : Nat) (handle : Nat)
  | ctxSend (ctx : Nat) (handle : Nat)
  | ctxRecv (ctx : Nat) (handle : Nat)
  | aioCancel (handle : Nat)
  | aioAlloc
  | aioFree (handle : Nat)
deriving DecidableEq, Repr

/-- Rust `Aio::sleep` of `src/aio.rs`: under the lock, if the state is `Inactive`
call `nng_sleep_aio` with the converted duration and the foreign handle and
move to `Sleeping`; otherwise fail with `Error::TryAgain`.  Returns the Rust
result, the cell after the call, and the engine calls made. -/
def sleep (l : Inner) (ms : Int) : Except Error Unit × Inner × List Event :=
  if l.state = State.Inactive then
    (Except.ok (), { l with state := State.Sleeping }, [Event.sleepAio ms l.handle])
  else
    (Except.error Error.TryAgain, l, [])

/-- Rust `Aio::send_socket` of `src/aio.rs`: under the lock, if the state is
`Inactive` hand the message to the engine (`nng_aio_set_msg`) and start
`nng_send_aio` on the socket, moving to `Sending`; otherwise fail with
`(msg, Error::TryAgain)`, returning the message to the caller. -/
def send_socket (l : Inner) (socket : Nat) (msg : Message) :
    Except (Message × Error) Unit × Inner × List Event :=
  if l.state = State.Inactive then
    (Except.ok (), { l with state := State.Sending },
      [Event.aioSetMsg l.handle msg, Event.sendAio socket l.handle])
  else
    (Except.error (msg, Error.TryAgain), l, [])

/-- Rust `Aio::recv_socket` of `src/aio.rs`: under the lock, if the state is
`Inactive` start `nng_recv_aio` on the socket and move to `Receiving`;
otherwise fail with `Error::TryAgain`. -/
def recv_socket (l : Inner) (socket : Nat) : Except Error Unit × Inner × List Event :=
  if l.state = State.Inactive then
    (Except.ok (), { l with state := State.Receiving },
      [Event.recvAio socket l.handle])
  else
    (Except.error Error.TryAgain, l, [])

/-- Rust `Aio::send_ctx` of `src/aio.rs`: under the lock, if the state is
`Inactive` hand the message to the engine (`nng_aio_set_msg`) and start
`nng_ctx_send` on the context, moving to `Sending`; otherwise fail with
`(msg, Error::TryAgain)`. -/
def send_ctx (l : Inner) (ctx : Nat) (msg : Message) :
    Except (Message × Error) Unit × Inner × List Event :=
  if l.state = State.Inactive then
    (Except.ok (), { l with state := State.Sending },
      [Event.aioSetMsg l.handle msg, Event.ctxSend ctx l.handle])
  else
    (Except.error (msg, Error.TryAgain), l, [])

/-- Rust `Aio::recv_ctx` of `src/aio.rs`: under the lock, if the state is
`Inactive` start `nng_ctx_recv` on the context and move to `Receiving`;
otherwise fail with `Error::TryAgain`. -/
def recv_ctx (l : Inner) (ctx : Nat) : Except Error Unit × Inner × List Event :=
  if l.state = State.Inactive then
    (Except.ok (), { l with state := State.Receiving },
      [Event.ctxRecv ctx l.handle])
  else
    (Except.error Error.TryAgain, l, [])

/-- The `match (l.state, rv)` classification inside the bounce closure of
`Aio::new` in `src/aio.rs`.  `rv` is the status returned by
`nng_aio_result`; `msgBack` is the message `nng_aio_get_msg` would hand back
in the branches that retrieve one.  The `(Building, _) | (Inactive, _)` arm
runs `unreachable!`, modelled as `none`. -/
def classify (s : State) (rv : Nat) (msgBack : Message) : Option AioResult :=
  match s, rv with
  | State.Sending, 0 => some AioResult.SendOk
  | State.Sending, e => some (AioResult.SendErr msgBack (Error.from_code e))
  | State.Receiving, 0 => some (AioResult.RecvOk msgBack)
  | State.Receiving, e => some (AioResult.RecvErr (Error.from_code e))
  | State.Sleeping, 0 => some AioResult.SleepOk
  | State.Sleeping, e => some (AioResult.SleepErr (Error.from_code e))
  | State.Building, _ => none
  | State.Inactive, _ => none

/-- The engine calls the classification match itself performs: a failing send
and a successful receive both retrieve a message via `nng_aio_get_msg`. -/
def classifyCalls (s : State) (rv : Nat) (handle : Nat) : List Event :=
  match s, rv with
  | State.Sending, 0 => []
  | State.Sending, _ => [Event.aioGetMsg handle]
  | State.Receiving, 0 => [Event.aioGetMsg handle]
  | State.Receiving, _ => []
  | _, _ => []

/-- The bounce closure of `Aio::new` in `src/aio.rs`, as a state transformer:
given the cell observed under the lock, the status from `nng_aio_result`,
and the message the engine would hand back, produce the classification and
the cell with its state reset to `Inactive`.  The `unreachable!` arm is
`none`; there the state assignment is never reached. -/
def bounce (l : Inner) (rv : Nat) (msgBack : Message) : Option (AioResult × Inner) :=
  (classify l.state rv msgBack).map
    (fun res => (res, { l with state := State.Inactive }))

/-- The event trace of one bounce-closure invocation, following the source
order: take the lock, read `nng_aio_result`, run the classification match
(with its `nng_aio_get_msg` calls), assign `l.state = State::Inactive`, drop
the lock at the end of the inner block, then invoke the user callback. -/
def bounceEvents (l : Inner) (rv : Nat) (msgBack : Message) : List Event :=
  match classify l.state rv msgBack with
  | some res =>
      [Event.lockAcquire, Event.aioGetResult l.handle]
        ++ classifyCalls l.state rv l.handle
        ++ [Event.setInactive, Event.lockRelease, Event.userCallback res]
  | none =>
      [Event.lockAcquire, Event.aioGetResult l.handle, Event.panicked]

/-- Selects the events whose relative order the trampoline ordering claims
are about: the state reset, the lock release, and the callback invocation. -/
def orderingEvent : Event → Bool
  | Event.setInactive => true
  | Event.lockRelease => true
  | Event.userCallback _ => true
  | _ => false

/-- Rust `Aio::cancel` of `src/aio.rs`: take the lock and call `nng_aio_cancel`
on the foreign handle.  The cell is not modified and no callback runs. -/
def cancel (l : Inner) : Inner × List Event :=
  (l, [Event.lockAcquire, Event.aioCancel l.handle, Event.lockRelease])

/-- The `Aio` struct of `src/aio.rs`: a front for the shared completion cell
(the `Arc<Mutex<Inner>>`, modelled by the identity of the shared allocation)
plus an optional owned reference to the callback closure (the
`Option<AssertUnwindSafe<Arc<dyn FnOnce>>>`, modelled by the identity of the
callback allocation, `none` in the callback-internal instance). -/
structure Aio where
  inner : Nat
  callback : Option Nat
deriving DecidableEq, Repr

/-- Rust `Aio::try_clone` of `src/aio.rs`: if this instance owns the callback,
return a new instance sharing the same cell and cloning the callback
reference; the callback-internal instance (callback `None`) yields `None`. -/
def try_clone (a : Aio) : Option Aio :=
  match a.callback with
  | some c => some { inner := a.inner, callback := some c }
  | none => none

/-- Modelled from the spec: `validate_ptr` lives in `src/util.rs`, absent
from the sources.  Per spec §4.1 and §7, a non-zero status surfaces the
engine's code verbatim as the error, and a zero status must come with a
usable (non-null) handle — a null one is an engine-contract violation
(a panic, modelled as `none`). -/
def validate_ptr (rv : Nat) (p : Option Nat) : Option (Except Error Nat) :=
  if rv ≠ 0 then some (Except.error (Error.from_code rv))
  else
    match p with
    | some q => some (Except.ok q)
    | none => none

/-- Rust `Aio::alloc_trampoline` of `src/aio.rs`, after the `nng_aio_alloc` call:
`rv` is the returned status and `p` the handle pointer the engine wrote
(`none` for null).  If `rv ≠ 0` and the pointer is non-null, return
`Error::Unknown(0)` without touching the cell; otherwise store the pointer
validated by `validate_ptr` into the cell's handle field.  Returns the Rust
result, the cell after the call, and the engine calls made; a panic inside
`validate_ptr` is `none`. -/
def alloc_trampoline (l : Inner) (rv : Nat) (p : Option Nat) :
    Option (Except Error Unit × Inner × List Event) :=
  if rv ≠ 0 ∧ p ≠ none then
    some (Except.error (Error.Unknown 0), l, [Event.aioAlloc])
  else
    match validate_ptr rv p with
    | some (Except.error e) => some (Except.error e, l, [Event.aioAlloc])
    | some (Except.ok q) => some (Except.ok (), { l with handle := q }, [Event.aioAlloc])
    | none => none

/-- Destructor `impl Drop for Inner` of `src/aio.rs`: the destructor of the shared
completion cell calls `nng_aio_free` on the handle only when the state is
not `Building` (a `Building` cell may still hold the dangling placeholder
pointer). -/
def Inner.dropEvents (l : Inner) : List Event :=
  if l.state ≠ State.Building then [Event.aioFree l.handle] else []

/-- Conversion `impl From<AioResult> for Result<Option<Message>>` of `src/aio.rs`. -/
def aio_result_to_result (r : AioResult) : Except Error (Option Message) :=
  match r with
  | AioResult.SendOk => Except.ok none
  | AioResult.SleepOk => Except.ok none
  | AioResult.SendErr _ e => Except.error e
  | AioResult.RecvErr e => Except.error e
  | AioResult.SleepErr e => Except.error e
  | AioResult.RecvOk m => Except.ok (some m)

/-- The `Protocol` enum of `nng/src/socket.rs`. -/
inductive Protocol where
  | Bus0
  | Pair0
  | Pair1
  | Pub0
  | Pull0
  | Push0
  | Rep0
  | Req0
  | Respondent0
  | Sub0
  | Surveyor0
deriving DecidableEq, Repr

/-- The engine open constructors (`nng_bus0_open`, `nng_pair0_open`, ...)
that `Socket::new` can invoke. -/
inductive OpenCtor where
  | bus0_open
  | pair0_open
  | pair1_open
  | pub0_open
  | pull0_open
  | push0_open
  | rep0_open
  | req0_open
  | respondent0_open
  | sub0_open
  | surveyor0_open
deriving DecidableEq, Repr

/-- The `match t` dispatch inside `Socket::new` of `nng/src/socket.rs`:
which engine open constructor is invoked for each `Protocol` variant.
Translated arm by arm from the source, including the `Push0` arm, which the
source dispatches to `nng_pull0_open`. -/
def socket_new_open (t : Protocol) : OpenCtor :=
  match t with
  | Protocol.Bus0 => OpenCtor.bus0_open
  | Protocol.Pair0 => OpenCtor.pair0_open
  | Protocol.Pair1 => OpenCtor.pair1_open
  | Protocol.Pub0 => OpenCtor.pub0_open
  | Protocol.Pull0 => OpenCtor.pull0_open
  | Protocol.Push0 => OpenCtor.pull0_open
  | Protocol.Rep0 => OpenCtor.rep0_open
  | Protocol.Req0 => OpenCtor.req0_open
  | Protocol.Respondent0 => OpenCtor.respondent0_open
  | Protocol.Sub0 => OpenCtor.sub0_open
  | Protocol.Surveyor0 => OpenCtor.surveyor0_open

/-- The open constructor matching each protocol variant by name, as the
claim and the source's own doc comment ("a new socket which uses the
specified protocol") describe the intended mapping. -/
def protocol_ctor_spec (t : Protocol) : OpenCtor :=
  match t with
  | Protocol.Bus0 => OpenCtor.bus0_open
  | Protocol.Pair0 => OpenCtor.pair0_open
  | Protocol.Pair1 => OpenCtor.pair1_open
  | Protocol.Pub0 => OpenCtor.pub0_open
  | Protocol.Pull0 => OpenCtor.pull0_open
  | Protocol.Push0 => OpenCtor.push0_open
  | Protocol.Rep0 => OpenCtor.rep0_open
  | Protocol.Req0 => OpenCtor.req0_open
  | Protocol.Respondent0 => OpenCtor.respondent0_open
  | Protocol.Sub0 => OpenCtor.sub0_open
  | Protocol.Surveyor0 => OpenCtor.surveyor0_open

/-- A state set by a successful start operation: one of `Sending`,
`Receiving`, `Sleeping`. -/
def started (s : State) : Prop :=
  s = State.Sending ∨ s = State.Receiving ∨ s = State.Sleeping

instance (s : State) : Decidable (started s) := by
  unfold started
  exact inferInstance

/-- Selects the user-callback invocation events of a trace. -/
def callbackEvent : Event → Bool
  | Event.userCallback _ => true
  | _ => false

/-- The engine calls made inside the classification match contain no
ordering-relevant event. -/
theorem classifyCalls_no_ordering (s : State) (rv h : Nat) :
    (classifyCalls s rv h).filter orderingEvent = [] := by
  cases s <;> cases rv <;> rfl

/-- The engine calls made inside the classification match contain no
user-callback invocation. -/
theorem classifyCalls_no_callback (s : State) (rv h : Nat) :
    (classifyCalls s rv h).filter callbackEvent = [] := by
  cases s <;> cases rv <;> rfl

/-- Claim C1: each start operation (`sleep`, `send_socket`, `recv_socket`,
`send_ctx`, `recv_ctx`) on an `Inactive` cell invokes the matching engine
starter on the foreign handle, sets the matching state, and returns `Ok`;
on any other state it fails immediately with `TryAgain` (the send variants
carry the message back), makes no engine call, and leaves the cell
unchanged. -/
theorem start_ops_follow_state_machine :
    ∀ (l : Inner) (ms : Int) (socket ctx : Nat) (msg : Message),
    (l.state = State.Inactive →
      sleep l ms =
        (Except.ok (), { l with state := State.Sleeping }, [Event.sleepAio ms l.handle])
      ∧ send_socket l socket msg =
        (Except.ok (), { l with state := State.Sending },
          [Event.aioSetMsg l.handle msg, Event.sendAio socket l.handle])
      ∧ recv_socket l socket =
        (Except.ok (), { l with state := State.Receiving }, [Event.recvAio socket l.handle])
      ∧ send_ctx l ctx msg =
        (Except.ok (), { l with state := State.Sending },
          [Event.aioSetMsg l.handle msg, Event.ctxSend ctx l.handle])
      ∧ recv_ctx l ctx =
        (Except.ok (), { l with state := State.Receiving }, [Event.ctxRecv ctx l.handle]))
    ∧ (l.state ≠ State.Inactive →
      sleep l ms = (Except.error Error.TryAgain, l, [])
      ∧ send_socket l socket msg = (Except.error (msg, Error.TryAgain), l, [])
      ∧ recv_socket l socket = (Except.error Error.TryAgain, l, [])
      ∧ send_ctx l ctx msg = (Except.error (msg, Error.TryAgain), l, [])
      ∧ recv_ctx l ctx = (Except.error Error.TryAgain, l, [])) := by
  intro l ms socket ctx msg
  constructor
  · intro h
    simp [sleep, send_socket, recv_socket, send_ctx, recv_ctx, h]
  · intro h
    simp [sleep, send_socket, recv_socket, send_ctx, recv_ctx, h]

/-- Witness for claim C1 at a concrete inactive cell and a concrete busy
cell. -/
theorem start_ops_follow_state_machine_w :
    sleep ⟨7, State.Inactive⟩ 5 =
      (Except.ok (), ⟨7, State.Sleeping⟩, [Event.sleepAio 5 7])
    ∧ send_socket ⟨7, State.Sending⟩ 2 ⟨4⟩ =
      (Except.error (⟨4⟩, Error.TryAgain), ⟨7, State.Sending⟩, []) :=
  ⟨((start_ops_follow_state_machine ⟨7, State.Inactive⟩ 5 2 3 ⟨4⟩).1 rfl).1,
   ((start_ops_follow_state_machine ⟨7, State.Sending⟩ 5 2 3 ⟨4⟩).2 (by decide)).2.1⟩

/-- Claim C2: the trampoline classification maps each pair of observed state
and foreign status exactly as specified, handing the returned message into
`SendErr` and the delivered message into `RecvOk`. -/
theorem trampoline_classification :
    ∀ (rv : Nat) (mb : Message),
    classify State.Sending 0 mb = some AioResult.SendOk
    ∧ (rv ≠ 0 → classify State.Sending rv mb
        = some (AioResult.SendErr mb (Error.from_code rv)))
    ∧ classify State.Receiving 0 mb = some (AioResult.RecvOk mb)
    ∧ (rv ≠ 0 → classify State.Receiving rv mb
        = some (AioResult.RecvErr (Error.from_code rv)))
    ∧ classify State.Sleeping 0 mb = some AioResult.SleepOk
    ∧ (rv ≠ 0 → classify State.Sleeping rv mb
        = some (AioResult.SleepErr (Error.from_code rv))) := by
  intro rv mb
  refine ⟨rfl, ?_, rfl, ?_, rfl, ?_⟩
  all_goals
    intro h
    cases rv with
    | zero => exact absurd rfl h
    | succ n => rfl

/-- Witness for claim C2 at foreign status 5. -/
theorem trampoline_classification_w :
    classify State.Sending 5 ⟨1⟩ = some (AioResult.SendErr ⟨1⟩ (Error.from_code 5)) :=
  (trampoline_classification 5 ⟨1⟩).2.1 (by decide)

/-- Claim C8: `cancel` leaves the cell — in particular its state field and
handle field — unchanged for every state, and its trace contains no
user-callback invocation. -/
theorem cancel_is_frame :
    ∀ l : Inner,
    (cancel l).1 = l
    ∧ ((cancel l).1).state = l.state
    ∧ ((cancel l).1).handle = l.handle
    ∧ (∀ r, Event.userCallback r ∉ (cancel l).2) := by
  intro l
  refine ⟨rfl, rfl, rfl, ?_⟩
  intro r
  simp [cancel]

/-- Claim C7: `try_clone` succeeds exactly when the instance owns the
callback; the clone shares the same cell and owns the same callback
reference; the callback-internal instance (no owned callback) yields
`none`. -/
theorem try_clone_iff_owns_callback :
    ∀ a : Aio,
    ((try_clone a).isSome ↔ a.callback.isSome)
    ∧ (∀ c, a.callback = some c →
        try_clone a = some { inner := a.inner, callback := some c })
    ∧ (a.callback = none → try_clone a = none) := by
  intro a
  cases h : a.callback <;> simp [try_clone, h]

/-- Witness for claim C7 on a callback-owning instance and on the
callback-internal instance. -/
theorem try_clone_iff_owns_callback_w :
    try_clone ⟨5, some 2⟩ = some ⟨5, some 2⟩
    ∧ try_clone ⟨5, none⟩ = none :=
  ⟨(try_clone_iff_owns_callback ⟨5, some 2⟩).2.1 2 rfl,
   (try_clone_iff_owns_callback ⟨5, none⟩).2.2 rfl⟩

/-- Claim C9: evaluating the `Socket::new` dispatch at the failing input
`Protocol::Push0` shows the source invokes `nng_pull0_open`, not the push
constructor that the claim and the function's own doc comment require;
every other variant opens its own protocol's constructor. -/
theorem socket_new_push0_opens_pull :
    socket_new_open Protocol.Push0 = OpenCtor.pull0_open
    ∧ socket_new_open Protocol.Push0 ≠ protocol_ctor_spec Protocol.Push0
    ∧ ∀ t : Protocol, t = Protocol.Push0 ∨ socket_new_open t = protocol_ctor_spec t := by
  refine ⟨rfl, by decide, ?_⟩
  intro t
  cases t
  all_goals first | exact Or.inl rfl | exact Or.inr rfl

/-- Claim C10: the conversion from `AioResult` to `Result<Option<Message>>`
maps `SendOk` and `SleepOk` to `Ok(None)`, `RecvOk(m)` to `Ok(Some(m))`,
and each error variant to `Err(e)`; the buffer inside `SendErr` is dropped
— the result does not depend on it. -/
theorem aio_result_conversion :
    ∀ (m m' : Message) (e : Error),
    aio_result_to_result AioResult.SendOk = Except.ok none
    ∧ aio_result_to_result AioResult.SleepOk = Except.ok none
    ∧ aio_result_to_result (AioResult.RecvOk m) = Except.ok (some m)
    ∧ aio_result_to_result (AioResult.SendErr m e) = Except.error e
    ∧ aio_result_to_result (AioResult.RecvErr e) = Except.error e
    ∧ aio_result_to_result (AioResult.SleepErr e) = Except.error e
    ∧ aio_result_to_result (AioResult.SendErr m e)
        = aio_result_to_result (AioResult.SendErr m' e) := by
  intro m m' e
  exact ⟨rfl, rfl, rfl, rfl, rfl, rfl, rfl⟩

/-- Claim C3: in every successful trampoline invocation the ordering events
of the trace are exactly the state reset, then the lock release, then the
user-callback invocation; the cell handed past the reset is `Inactive`, so
a start operation issued from inside the callback on the same handle
succeeds. -/
theorem trampoline_reset_before_unlock_before_callback :
    ∀ (l : Inner) (rv : Nat) (mb : Message) (res : AioResult) (l' : Inner),
    bounce l rv mb = some (res, l') →
    (bounceEvents l rv mb).filter orderingEvent
      = [Event.setInactive, Event.lockRelease, Event.userCallback res]
    ∧ l'.state = State.Inactive
    ∧ (∀ ms : Int, (sleep l' ms).1 = Except.ok ())
    ∧ (∀ s : Nat, (recv_socket l' s).1 = Except.ok ()) := by
  intro l rv mb res l' h
  cases hc : classify l.state rv mb with
  | none => simp [bounce, hc] at h
  | some r =>
    simp [bounce, hc] at h
    obtain ⟨hr, hl⟩ := h
    subst hr
    refine ⟨?_, ?_, ?_, ?_⟩
    · simp [bounceEvents, hc, List.filter_append, classifyCalls_no_ordering,
        orderingEvent]
    · rw [← hl]
    · intro ms
      rw [← hl]
      simp [sleep]
    · intro s
      rw [← hl]
      simp [recv_socket]

/-- Witness for claim C3 at a concrete sleeping completion. -/
theorem trampoline_reset_before_unlock_before_callback_w :
    (bounceEvents ⟨9, State.Sleeping⟩ 0 ⟨0⟩).filter orderingEvent
      = [Event.setInactive, Event.lockRelease, Event.userCallback AioResult.SleepOk]
    ∧ (sleep ⟨9, State.Inactive⟩ 5).1 = Except.ok () :=
  ⟨(trampoline_reset_before_unlock_before_callback ⟨9, State.Sleeping⟩ 0 ⟨0⟩
      AioResult.SleepOk ⟨9, State.Inactive⟩ rfl).1,
   (trampoline_reset_before_unlock_before_callback ⟨9, State.Sleeping⟩ 0 ⟨0⟩
      AioResult.SleepOk ⟨9, State.Inactive⟩ rfl).2.2.1 5⟩

/-- Claim C4 counterexample: at a concrete completion (a sleep finishing
with status 0) the trace resets the state to `Inactive` strictly before the
user-callback invocation — both events occur, and the reset comes first —
refuting the claim that the state returns to `Inactive` only after the
callback invocation. -/
theorem state_reset_precedes_callback_cex :
    (bounceEvents ⟨1, State.Sleeping⟩ 0 ⟨0⟩).indexOf Event.setInactive
      < (bounceEvents ⟨1, State.Sleeping⟩ 0 ⟨0⟩).indexOf
          (Event.userCallback AioResult.SleepOk)
    ∧ Event.setInactive ∈ bounceEvents ⟨1, State.Sleeping⟩ 0 ⟨0⟩
    ∧ Event.userCallback AioResult.SleepOk ∈ bounceEvents ⟨1, State.Sleeping⟩ 0 ⟨0⟩ := by
  decide

/-- Claim C4 (amended): in every successful trampoline invocation the user
callback is invoked exactly once (the trace's callback events are exactly
one invocation), and the state is reset to `Inactive` before — not after —
that invocation, which is why an immediate start of a new operation from
inside the callback succeeds. -/
theorem callback_once_after_reset :
    ∀ (l : Inner) (rv : Nat) (mb : Message) (res : AioResult) (l' : Inner),
    bounce l rv mb = some (res, l') →
    (bounceEvents l rv mb).filter callbackEvent = [Event.userCallback res]
    ∧ (bounceEvents l rv mb).filter orderingEvent
        = [Event.setInactive, Event.lockRelease, Event.userCallback res]
    ∧ l'.state = State.Inactive
    ∧ (∀ ms : Int, (sleep l' ms).1 = Except.ok ()) := by
  intro l rv mb res l' h
  cases hc : classify l.state rv mb with
  | none => simp [bounce, hc] at h
  | some r =>
    simp [bounce, hc] at h
    obtain ⟨hr, hl⟩ := h
    subst hr
    refine ⟨?_, ?_, ?_, ?_⟩
    · simp [bounceEvents, hc, List.filter_append, classifyCalls_no_callback,
        callbackEvent]
    · simp [bounceEvents, hc, List.filter_append, classifyCalls_no_ordering,
        orderingEvent]
    · rw [← hl]
    · intro ms
      rw [← hl]
      simp [sleep]

/-- Witness for the amended claim C4 at a concrete receive completion. -/
theorem callback_once_after_reset_w :
    (bounceEvents ⟨2, State.Receiving⟩ 0 ⟨3⟩).filter callbackEvent
      = [Event.userCallback (AioResult.RecvOk ⟨3⟩)]
    ∧ (sleep ⟨2, State.Inactive⟩ 4).1 = Except.ok () :=
  ⟨(callback_once_after_reset ⟨2, State.Receiving⟩ 0 ⟨3⟩
      (AioResult.RecvOk ⟨3⟩) ⟨2, State.Inactive⟩ rfl).1,
   (callback_once_after_reset ⟨2, State.Receiving⟩ 0 ⟨3⟩
      (AioResult.RecvOk ⟨3⟩) ⟨2, State.Inactive⟩ rfl).2.2.2 4⟩

/-- Claim C5: every successful start operation leaves the cell in a started
state (`Sending`, `Receiving` or `Sleeping`); for every started state the
classification succeeds, and the `unreachable!` arm — exactly where
`classify` is `none`, i.e. `Building` and `Inactive` — is dead code under
that precondition. -/
theorem completion_never_sees_building_or_inactive :
    ∀ (l : Inner) (ms : Int) (socket ctx : Nat) (msg : Message) (rv : Nat) (mb : Message),
    (l.state = State.Inactive →
      started ((sleep l ms).2.1.state)
      ∧ started ((send_socket l socket msg).2.1.state)
      ∧ started ((recv_socket l socket).2.1.state)
      ∧ started ((send_ctx l ctx msg).2.1.state)
      ∧ started ((recv_ctx l ctx).2.1.state))
    ∧ (∀ s : State, started s → (classify s rv mb).isSome)
    ∧ classify State.Building rv mb = none
    ∧ classify State.Inactive rv mb = none := by
  intro l ms socket ctx msg rv mb
  refine ⟨?_, ?_, ?_, ?_⟩
  · intro h
    simp [sleep, send_socket, recv_socket, send_ctx, recv_ctx, h, started]
  · intro s hs
    rcases hs with h | h | h <;> subst h <;> cases rv <;> rfl
  · cases rv <;> rfl
  · cases rv <;> rfl

/-- Witness for claim C5 at a concrete inactive cell and the `Sleeping`
started state. -/
theorem completion_never_sees_building_or_inactive_w :
    started ((sleep ⟨4, State.Inactive⟩ 9).2.1.state)
    ∧ (classify State.Sleeping 3 ⟨0⟩).isSome :=
  ⟨((completion_never_sees_building_or_inactive ⟨4, State.Inactive⟩ 9 1 1 ⟨0⟩ 3 ⟨0⟩).1
      rfl).1,
   (completion_never_sees_building_or_inactive ⟨4, State.Inactive⟩ 9 1 1 ⟨0⟩ 3 ⟨0⟩).2.1
      State.Sleeping (Or.inr (Or.inr rfl))⟩

/-- Claim C6: if `nng_aio_alloc` returns a non-zero status together with a
non-null pointer, `alloc_trampoline` returns `Error::Unknown(0)`, its trace
contains no `nng_aio_free` call, and the cell is returned unchanged (so a
`Building` state remains `Building`); and the cell destructor calls
`nng_aio_free` exactly when the state is not `Building`. -/
theorem alloc_failure_never_frees :
    ∀ (l : Inner) (rv q : Nat),
    (rv ≠ 0 →
      alloc_trampoline l rv (some q)
        = some (Except.error (Error.Unknown 0), l, [Event.aioAlloc])
      ∧ (∀ h, Event.aioFree h ∉
          (alloc_trampoline l rv (some q)).elim ([] : List Event) (fun t => t.2.2)))
    ∧ (l.state = State.Building → Inner.dropEvents l = [])
    ∧ (l.state ≠ State.Building → Inner.dropEvents l = [Event.aioFree l.handle]) := by
  intro l rv q
  refine ⟨?_, ?_, ?_⟩
  · intro h
    constructor
    · simp [alloc_trampoline, h]
    · intro hd
      simp [alloc_trampoline, h]
  · intro h
    simp [Inner.dropEvents, h]
  · intro h
    simp [Inner.dropEvents, h]

/-- Witness for claim C6 at a concrete failed allocation on a `Building`
cell, and the destructor on a `Building` and a non-`Building` cell. -/
theorem alloc_failure_never_frees_w :
    alloc_trampoline ⟨0, State.Building⟩ 3 (some 8)
      = some (Except.error (Error.Unknown 0), ⟨0, State.Building⟩, [Event.aioAlloc])
    ∧ Inner.dropEvents ⟨0, State.Building⟩ = []
    ∧ Inner.dropEvents ⟨8, State.Inactive⟩ = [Event.aioFree 8] :=
  ⟨((alloc_failure_never_frees ⟨0, State.Building⟩ 3 8).1 (by decide)).1,
   (alloc_failure_never_frees ⟨0, State.Building⟩ 3 8).2.1 rfl,
   (alloc_failure_never_frees ⟨8, State.Inactive⟩ 3 8).2.2 (by decide)⟩

end Nng
